import Mathlib

/-!
# Verification of the linux-activity-tracker remediation core

Shallow embedding of the RAM-pressure remediation pipeline:
`RAMDetector` (src/services/ramDetector.ts), `ProcessScanner`
(src/system/processScanner.ts), `ProcessKiller` (src/system/processKiller.ts),
`ProcParser.getMemoryInfo` (src/system/procParser.ts) and the tick loop of
`RAMMonitor` (src/services/ramMonitor.ts).

JavaScript numbers are modelled as rationals (`Rat`), timestamps as
milliseconds (`Int`).  Effects are made explicit: `Date.now()` and
`Math.random()` become parameters of each evaluation step, the OS reaction to
a signal becomes a `KillEnv` oracle, and `/proc/meminfo` becomes a `String`
argument.
-/

/-- `Math.round`: JavaScript rounds half toward positive infinity,
which is `⌊x + 1/2⌋`. -/
def jsRound (q : Rat) : Int := ⌊q + 1/2⌋

/-- `Math.pow(2, q)` at the exponents the detector can produce.
`cooldownMultiplier` starts at 1 and is only ever updated by
`min(8, m * 2)` and `max(1, m * 0.5)`, so `q = multiplier - 1` is an
integer whenever the multiplier arithmetic starts from an integer; for
integer `q` (also negative) `Math.pow(2, q)` is exactly `(2 : ℚ) ^ q`.
Non-integer exponents are unreachable and mapped to 0. -/
def mathPow2 (q : Rat) : Rat := if q.den = 1 then (2 : Rat) ^ q.num else 0

namespace RAMDetector

/-- `DetectionEvent` of src/services/ramDetector.ts. -/
structure DetectionEvent where
  timestamp : Int
  ram_percent : Rat
  threshold : Rat
  consecutive_count : Nat
  action_taken : Bool
deriving DecidableEq, Repr

/-- The mutable fields of class `RAMDetector`. -/
structure DetectorState where
  lastTriggerTime : Int
  consecutiveHighRAM : Nat
  detectionHistory : List DetectionEvent
  cooldownMultiplier : Rat
  isInCooldown : Bool
deriving DecidableEq, Repr

/-- Field initializers of class `RAMDetector`. -/
def initState : DetectorState :=
  { lastTriggerTime := 0
    consecutiveHighRAM := 0
    detectionHistory := []
    cooldownMultiplier := 1
    isInCooldown := false }

/-- The `config.ram` slice consumed by the detector. -/
structure RamConfig where
  threshold : Rat
  cooldown : Rat
  monitorInterval : Int
deriving DecidableEq, Repr

/-- `RAMDetector.calculateCooldown`.  `r` is the value drawn by
`Math.random()`, so `0 ≤ r < 1`. -/
def calculateCooldown (baseCooldown : Rat) (cooldownMultiplier : Rat) (r : Rat) : Int :=
  let exponentialDelay := baseCooldown * mathPow2 (cooldownMultiplier - 1)
  let cappedDelay := min exponentialDelay (30 * 60 * 1000)
  let jitter := cappedDelay * (1/10) * (r * 2 - 1)
  jsRound (cappedDelay + jitter)

/-- `RAMDetector.getRequiredConsecutiveCount`. -/
def getRequiredConsecutiveCount (monitorInterval : Int) : Nat :=
  if monitorInterval < 3000 then 5
  else if monitorInterval < 7000 then 3
  else 2

/-- `RAMDetector.logDetectionEvent`: push the event, keep only the last
100 entries (`shift()` drops the oldest). -/
def logDetectionEvent (now : Int) (percent threshold : Rat) (actionTaken : Bool)
    (s : DetectorState) : DetectorState :=
  let event : DetectionEvent :=
    { timestamp := now
      ram_percent := percent
      threshold := threshold
      consecutive_count := s.consecutiveHighRAM
      action_taken := actionTaken }
  let h := s.detectionHistory ++ [event]
  { s with detectionHistory := if h.length > 100 then h.tail else h }

/-- `RAMDetector.triggerAction`: record trigger time, enter cooldown,
double the multiplier (capped at 8), log an action event (with the
still-unreset consecutive count), then reset the consecutive counter.
The database insert is an external effect and carries no detector state. -/
def triggerAction (cfg : RamConfig) (now : Int) (percent : Rat)
    (s : DetectorState) : DetectorState :=
  let s1 := { s with
    lastTriggerTime := now
    isInCooldown := true
    cooldownMultiplier := min 8 (s.cooldownMultiplier * 2) }
  let s2 := logDetectionEvent now percent cfg.threshold true s1
  { s2 with consecutiveHighRAM := 0 }

/-- `RAMDetector.checkThreshold`, the `evaluate` step of the spec.
`now` is `Date.now()` and `r` the `Math.random()` draw used by the
cooldown computation of this call.  Returns the boolean result together
with the updated state. -/
def checkThreshold (cfg : RamConfig) (now : Int) (r : Rat) (percent : Rat)
    (s : DetectorState) : Bool × DetectorState :=
  if cfg.threshold < percent then
    let s1 := { s with consecutiveHighRAM := s.consecutiveHighRAM + 1 }
    if s1.isInCooldown ∧
        0 < calculateCooldown cfg.cooldown s1.cooldownMultiplier r - (now - s1.lastTriggerTime) then
      (false, logDetectionEvent now percent cfg.threshold false s1)
    else
      let s2 := if s1.isInCooldown then { s1 with isInCooldown := false } else s1
      if getRequiredConsecutiveCount cfg.monitorInterval ≤ s2.consecutiveHighRAM then
        (true, triggerAction cfg now percent s2)
      else
        (false, logDetectionEvent now percent cfg.threshold false s2)
  else
    if 0 < s.consecutiveHighRAM then
      let s1 := { s with consecutiveHighRAM := 0 }
      let s2 :=
        if 1 < s1.cooldownMultiplier then
          { s1 with cooldownMultiplier := max 1 (s1.cooldownMultiplier * (1/2)) }
        else s1
      (false, s2)
    else
      (false, s)

/-- `RAMDetector.resetCooldown`. -/
def resetCooldown (s : DetectorState) : DetectorState :=
  { s with isInCooldown := false, cooldownMultiplier := 1, consecutiveHighRAM := 0 }

end RAMDetector

/-- JavaScript `String.prototype.includes` on character lists:
`sub` occurs contiguously in the list.  The empty string is contained
in every string. -/
def containsSub (sub : List Char) : List Char → Bool
  | [] => sub.isEmpty
  | c :: rest => sub.isPrefixOf (c :: rest) || containsSub sub rest

/-- `s.includes(sub)` on strings. -/
def strIncludes (s sub : String) : Bool := containsSub sub.data s.data

/-- JavaScript `toLowerCase()` for the ASCII range (process and protected
names are ASCII), mapped over the character list. -/
def strToLower (s : String) : String := ⟨s.data.map Char.toLower⟩

/-- JavaScript `toUpperCase()` for the ASCII range. -/
def strToUpper (s : String) : String := ⟨s.data.map Char.toUpper⟩

/-- `ProcessInfo` of src/system/processScanner.ts. -/
structure ProcessInfo where
  pid : Int
  user : String
  memory_mb : Rat
  memory_percent : Rat
  cpu_percent : Rat
  command : String
  full_command : String
  ppid : Int
  state : String
  vsz_kb : Int
  rss_kb : Int
deriving DecidableEq, Repr

namespace ProcessScanner

/-- The `config.processes` slice consumed by the scanner. -/
structure ProcessesConfig where
  protectedList : List String
  minMemoryMB : Rat
deriving DecidableEq, Repr

/-- `ProcessScanner.isProtected`: the command name equals, or the command
name or full command line contains (case-insensitively), some
protected-list entry. -/
def isProtected (proc : ProcessInfo) (protectedList : List String) : Bool :=
  let commandLower := strToLower proc.command
  let fullCommandLower := strToLower proc.full_command
  protectedList.any fun pro =>
    let protectedLower := strToLower pro
    commandLower == protectedLower ||
      strIncludes commandLower protectedLower ||
      strIncludes fullCommandLower protectedLower

/-- `ProcessScanner.isCurrentProcess`: pid equals `process.pid` or
`process.ppid` of the running service. -/
def isCurrentProcess (proc : ProcessInfo) (currentPid parentPid : Int) : Bool :=
  proc.pid == currentPid || proc.pid == parentPid

/-- `ProcessScanner.isShellProcess`: parent pid equals the own parent pid of the service, or the command name is a known shell. -/
def isShellProcess (proc : ProcessInfo) (parentPid : Int) : Bool :=
  let shellPatterns := ["bash", "zsh", "fish", "sh", "dash", "ksh", "tcsh"]
  let commandLower := strToLower proc.command
  proc.ppid == parentPid || shellPatterns.any fun shell => commandLower == shell

/-- `ProcessScanner.isCriticalState`: the (upper-cased) state string
mentions Z (zombie), T (stopped) or X (dead). -/
def isCriticalState (proc : ProcessInfo) : Bool :=
  let state := strToUpper proc.state
  strIncludes state "Z" || strIncludes state "T" || strIncludes state "X"

/-- `ProcessScanner.getKillableProcesses` as a function of the enumerated
process list (`getUserProcesses()` output), the configuration, and the
own pid / parent pid of the service. -/
def getKillableProcesses (allProcesses : List ProcessInfo)
    (cfg : ProcessesConfig) (currentPid parentPid : Int) : List ProcessInfo :=
  allProcesses.filter fun proc =>
    if proc.memory_mb < cfg.minMemoryMB then false
    else if isProtected proc cfg.protectedList then false
    else if isCurrentProcess proc currentPid parentPid then false
    else if isShellProcess proc parentPid then false
    else if isCriticalState proc then false
    else true

end ProcessScanner

namespace ProcessKiller

/-- The error `code` of a failed `process.kill`: `ESRCH` (no such
process), `EPERM` (operation not permitted), or anything else. -/
inductive SignalError where
  | ESRCH
  | EPERM
  | otherError
deriving DecidableEq, Repr

/-- The OS behaviour observed while killing one process, making the
effects of src/system/processKiller.ts explicit: the outcome of each
`process.kill` call and whether the process exits within each
`waitForProcessExit` window (5000 ms after SIGTERM, 2000 ms after
SIGKILL). `none` means the signal call returned without throwing. -/
structure KillEnv where
  sigtermError : Option SignalError
  exitsWithinSigtermWait : Bool
  sigkillError : Option SignalError
  exitsWithinSigkillWait : Bool
deriving DecidableEq, Repr

/-- `KillResult` of src/system/processKiller.ts. -/
structure KillResult where
  success : Bool
  pid : Int
  signal : String
  memory_freed_mb : Rat
  error : Option String
  attempts : Nat
deriving DecidableEq, Repr

/-- `ProcessKiller.sendSignal`: true when the signal was delivered or the
process was already gone (`ESRCH`); false on `EPERM` or any other error. -/
def sendSignal (err : Option SignalError) : Bool :=
  match err with
  | none => true
  | some .ESRCH => true
  | some .EPERM => false
  | some .otherError => false

/-- `ProcessKiller.killProcess`: SIGTERM, wait up to 5 s; if the process
has not exited (or the SIGTERM call failed), SIGKILL and wait up to 2 s.
Returns the `KillResult` and the list of signals whose `process.kill`
call was made. -/
def killProcess (proc : ProcessInfo) (env : KillEnv) : KillResult × List String :=
  let result : KillResult :=
    { success := false
      pid := proc.pid
      signal := "NONE"
      memory_freed_mb := proc.memory_mb
      error := none
      attempts := 0 }
  let sigtermSuccess := sendSignal env.sigtermError
  if sigtermSuccess ∧ env.exitsWithinSigtermWait then
    ({ result with success := true, signal := "SIGTERM", attempts := 1 }, ["SIGTERM"])
  else
    let sigkillSuccess := sendSignal env.sigkillError
    if sigkillSuccess then
      if env.exitsWithinSigkillWait then
        ({ result with success := true, signal := "SIGKILL", attempts := 2 },
          ["SIGTERM", "SIGKILL"])
      else
        ({ result with error := some "Process did not exit after SIGKILL", attempts := 2 },
          ["SIGTERM", "SIGKILL"])
    else
      ({ result with error := some "Failed to send SIGKILL", attempts := 2 },
        ["SIGTERM", "SIGKILL"])

/-- The loop body of `ProcessKiller.killProcesses`: kill one candidate at
a time, collect the results, and break after the first unsuccessful
result (which is still pushed). -/
def killProcessesGo : List (ProcessInfo × KillEnv) → List KillResult
  | [] => []
  | pe :: rest =>
    let result := (killProcess pe.1 pe.2).1
    if result.success then result :: killProcessesGo rest else [result]

/-- `ProcessKiller.killProcesses`: process at most `maxKills` candidates
in input order (`processes.slice(0, maxKills)`), stopping at the first
failure. -/
def killProcesses (processes : List (ProcessInfo × KillEnv)) (maxKills : Nat) :
    List KillResult :=
  killProcessesGo (processes.take maxKills)

end ProcessKiller

namespace ProcParser

/-- JavaScript `meminfo.split('\n')` on the character list: split at every
newline, keeping empty segments. -/
def splitLines : List Char → List (List Char)
  | [] => [[]]
  | c :: rest =>
    if c = '\n' then [] :: splitLines rest
    else
      match splitLines rest with
      | [] => [[c]]
      | l :: ls => (c :: l) :: ls

/-- `\w` of the line regex: letters, digits and underscore. -/
def isWordChar (c : Char) : Bool := c.isAlphanum || c = '_'

/-- `parseInt(value, 10)` on the captured digit run. -/
def digitsToNat (ds : List Char) : Nat :=
  ds.foldl (fun n c => 10 * n + (c.toNat - 48)) 0

/-- The per-line match `line.match(/^(\w+):\s+(\d+)/)` of
`ProcParser.getMemoryInfo`: a leading run of word characters, a colon, at
least one whitespace character, then a run of digits; anything after the
digits is ignored.  Returns the key and the parsed value, or `none` when
the line does not match. -/
def parseMemLine (cs : List Char) : Option (String × Nat) :=
  let key := cs.takeWhile isWordChar
  let rest := cs.drop key.length
  if key.isEmpty then none
  else
    match rest with
    | ':' :: rest2 =>
      let sp := rest2.takeWhile (fun c => c.isWhitespace)
      let rest3 := rest2.drop sp.length
      let digits := rest3.takeWhile (fun c => c.isDigit)
      if sp.isEmpty ∨ digits.isEmpty then none
      else some (⟨key⟩, digitsToNat digits)
    | _ => none

/-- The `data` record built by the parsing loop, read back with the
`data[key] || 0` default: the last line that matched `key` wins, a
missing key (or a stored 0) yields 0. -/
def dataLookup (entries : List (String × Nat)) (key : String) : Nat :=
  entries.foldl (fun acc kv => if kv.1 = key then kv.2 else acc) 0

/-- `MemoryInfo` of src/system/procParser.ts. -/
structure MemoryInfo where
  total_mb : Rat
  free_mb : Rat
  available_mb : Rat
  used_mb : Rat
  percent : Rat
  buffers_mb : Rat
  cached_mb : Rat
  swap_total_mb : Rat
  swap_free_mb : Rat
  swap_used_mb : Rat
  swap_percent : Rat
deriving DecidableEq, Repr

/-- The `toMB` helper: `Math.round(kb / 1024 * 100) / 100`. -/
def toMB (kb : Rat) : Rat := (jsRound (kb / 1024 * 100) : Rat) / 100

/-- `ProcParser.getMemoryInfo` as a function of the `/proc/meminfo`
text. -/
def getMemoryInfo (meminfo : String) : MemoryInfo :=
  let entries := (splitLines meminfo.data).filterMap parseMemLine
  let memTotal : Rat := dataLookup entries "MemTotal"
  let memFree : Rat := dataLookup entries "MemFree"
  let memAvailable : Rat := dataLookup entries "MemAvailable"
  let buffers : Rat := dataLookup entries "Buffers"
  let cached : Rat := dataLookup entries "Cached"
  let swapTotal : Rat := dataLookup entries "SwapTotal"
  let swapFree : Rat := dataLookup entries "SwapFree"
  let totalMB := toMB memTotal
  let freeMB := toMB memFree
  let availableMB := toMB memAvailable
  let usedMB := totalMB - availableMB
  let percent := if 0 < totalMB then (jsRound (usedMB / totalMB * 10000) : Rat) / 100 else 0
  let swapTotalMB := toMB swapTotal
  let swapFreeMB := toMB swapFree
  let swapUsedMB := swapTotalMB - swapFreeMB
  let swapPercent :=
    if 0 < swapTotalMB then (jsRound (swapUsedMB / swapTotalMB * 10000) : Rat) / 100 else 0
  { total_mb := totalMB
    free_mb := freeMB
    available_mb := availableMB
    used_mb := usedMB
    percent := percent
    buffers_mb := toMB buffers
    cached_mb := toMB cached
    swap_total_mb := swapTotalMB
    swap_free_mb := swapFreeMB
    swap_used_mb := swapUsedMB
    swap_percent := swapPercent }

end ProcParser

namespace RAMMonitor

/-- The remediation-relevant state of `RAMMonitor`
(src/services/ramMonitor.ts): the detector it drives and the number of
remediation cycles (`handleHighRAMDetection` invocations) currently in
flight.  `captureSnapshot` is the body of the `setInterval` tick. -/
structure MonitorState where
  detector : RAMDetector.DetectorState
  activeRemediations : Nat
deriving DecidableEq, Repr

/-- The events of the monitor loop: a sampling tick (with the
`Date.now()` value, the jitter draw and the sampled percent), or the
completion of an in-flight remediation cycle. -/
inductive MonitorEvent where
  | tick (now : Int) (r : Rat) (percent : Rat)
  | remediationDone
deriving DecidableEq, Repr

/-- One step of the monitor.  A tick runs `captureSnapshot`: it evaluates
the detector and, when the detector says to act, calls
`handleHighRAMDetection` *without awaiting it* — the source neither
consults a cycle-in-progress flag before starting the new cycle nor
blocks the timer while one runs, so a tick always proceeds and a
triggered remediation simply joins the in-flight ones.
`remediationDone` is the (later, asynchronous) completion of one such
cycle. -/
def step (cfg : RAMDetector.RamConfig) (s : MonitorState) : MonitorEvent → MonitorState
  | .tick now r percent =>
    let result := RAMDetector.checkThreshold cfg now r percent s.detector
    { detector := result.2
      activeRemediations := s.activeRemediations + (if result.1 then 1 else 0) }
  | .remediationDone => { s with activeRemediations := s.activeRemediations - 1 }

/-- A run of the monitor from an initial state over a list of events. -/
def run (cfg : RAMDetector.RamConfig) (s : MonitorState) (events : List MonitorEvent) :
    MonitorState :=
  events.foldl (step cfg) s

/-- Initial monitor state: fresh detector, nothing in flight. -/
def initMonitor : MonitorState :=
  { detector := RAMDetector.initState, activeRemediations := 0 }

end RAMMonitor

section SampleData
open ProcessScanner ProcessKiller

/-- Sample candidate used by the worked example of the spec. -/
def systemdProc : ProcessInfo :=
  { pid := 1, user := "u", memory_mb := 500, memory_percent := 5,
    cpu_percent := 0, command := "systemd", full_command := "systemd --user",
    ppid := 0, state := "S", vsz_kb := 0, rss_kb := 512000 }

def chromeProc : ProcessInfo :=
  { pid := 100, user := "u", memory_mb := 150, memory_percent := 2,
    cpu_percent := 1, command := "chrome", full_command := "chrome --type=tab",
    ppid := 50, state := "S", vsz_kb := 0, rss_kb := 153600 }

def vimProc : ProcessInfo :=
  { pid := 200, user := "u", memory_mb := 50, memory_percent := 1,
    cpu_percent := 0, command := "vim", full_command := "vim notes.txt",
    ppid := 50, state := "S", vsz_kb := 0, rss_kb := 51200 }

def exampleScanCfg : ProcessesConfig :=
  { protectedList := ["systemd"], minMemoryMB := 100 }

/-- Environment in which both `process.kill` calls fail with `EPERM`. -/
def epermEnv : KillEnv :=
  { sigtermError := some .EPERM
    exitsWithinSigtermWait := false
    sigkillError := some .EPERM
    exitsWithinSigkillWait := false }

/-- Environment in which SIGTERM is delivered and the process exits
within the 5-second window. -/
def gracefulEnv : KillEnv :=
  { sigtermError := none
    exitsWithinSigtermWait := true
    sigkillError := none
    exitsWithinSigkillWait := true }

end SampleData

namespace Claims
open RAMDetector

/-- Threshold 90, base cooldown 60 s, sampling every 5 s: the
configuration of the worked examples. -/
def cfg90 : RamConfig := { threshold := 90, cooldown := 60000, monitorInterval := 5000 }

/-- A detector state as left by a trigger: counter already reset to 0 but
multiplier raised to 2, cooldown flag still set in general — here shown
with the flag already cleared to exercise the recovery branch. -/
def statePostTrigger : DetectorState :=
  { lastTriggerTime := 0
    consecutiveHighRAM := 0
    detectionHistory := []
    cooldownMultiplier := 2
    isInCooldown := false }

/-- A detector state with an active breach streak and multiplier 2. -/
def stateStreak2 : DetectorState :=
  { lastTriggerTime := 0
    consecutiveHighRAM := 2
    detectionHistory := []
    cooldownMultiplier := 2
    isInCooldown := false }

/-- A sample non-action detection event. -/
def sampleEvent : DetectionEvent :=
  { timestamp := 0
    ram_percent := 95
    threshold := 90
    consecutive_count := 1
    action_taken := false }

/-- A detector state with one recorded event and a one-sample streak. -/
def stateOneEvent : DetectorState :=
  { lastTriggerTime := 0
    consecutiveHighRAM := 1
    detectionHistory := [sampleEvent]
    cooldownMultiplier := 1
    isInCooldown := false }

/-- A detector state inside an active cooldown window with a long
breach streak. -/
def stateInCooldown : DetectorState :=
  { lastTriggerTime := 0
    consecutiveHighRAM := 7
    detectionHistory := []
    cooldownMultiplier := 2
    isInCooldown := true }

/-- A meminfo text whose MemTotal line is unparseable (no digits) and
whose SwapTotal is zero. -/
def badMeminfo : String := "MemTotal: abc kB\nSwapTotal: 0 kB\nMemFree: 100 kB"

end Claims

namespace ProcessKiller

/-- The batch loop visits exactly the successful prefix of the list plus
the first failing candidate, in input order. -/
theorem killProcessesGo_eq (l : List (ProcessInfo × KillEnv)) :
    killProcessesGo l =
      (l.takeWhile (fun pe => (killProcess pe.1 pe.2).1.success)).map
          (fun pe => (killProcess pe.1 pe.2).1) ++
        ((l.dropWhile (fun pe => (killProcess pe.1 pe.2).1.success)).take 1).map
          (fun pe => (killProcess pe.1 pe.2).1) := by
  induction l with
  | nil => rfl
  | cons pe rest ih =>
    by_cases hs : (killProcess pe.1 pe.2).1.success = true
    · simp [killProcessesGo, List.takeWhile, List.dropWhile, hs, ih]
    · simp [killProcessesGo, List.takeWhile, List.dropWhile, hs]

/-- The batch loop never returns more results than candidates. -/
theorem killProcessesGo_length (l : List (ProcessInfo × KillEnv)) :
    (killProcessesGo l).length ≤ l.length := by
  induction l with
  | nil => exact Nat.le_refl 0
  | cons pe rest ih =>
    rw [killProcessesGo]
    by_cases hs : (killProcess pe.1 pe.2).1.success = true
    · simpa [hs] using Nat.succ_le_succ ih
    · simp [hs]

end ProcessKiller

namespace ProcParser

/-- If every parsed entry for `key` carries the value 0 (in particular if
no line parses to `key` at all), the `data[key] || 0` read yields 0. -/
theorem dataLookup_eq_zero (entries : List (String × Nat)) (key : String)
    (h : ∀ kv ∈ entries, kv.1 = key → kv.2 = 0) : dataLookup entries key = 0 := by
  induction entries with
  | nil => rfl
  | cons kv rest ih =>
    rw [dataLookup, List.foldl_cons]
    have h0 : (if kv.1 = key then kv.2 else 0) = 0 := by
      by_cases hk : kv.1 = key
      · simpa [hk] using h kv (List.mem_cons_self _ _) hk
      · simp [hk]
    rw [h0]
    exact ih fun kv2 hm2 => h kv2 (List.mem_cons_of_mem _ hm2)

end ProcParser

namespace Claims
open RAMDetector

/-- Claim C2: starting from a freshly reset detector with threshold 90
and monitor interval 5000 ms (so the required consecutive count is 3),
evaluating three successive snapshots with percent 95 returns false,
false, true in that order, and the consecutive-breach counter equals 0
immediately after the third call. -/
theorem claim_C2 (base : Rat) (s : DetectorState) (now1 now2 now3 : Int)
    (r1 r2 r3 : Rat) :
    let cfg : RamConfig := { threshold := 90, cooldown := base, monitorInterval := 5000 }
    let e1 := checkThreshold cfg now1 r1 95 (resetCooldown s)
    let e2 := checkThreshold cfg now2 r2 95 e1.2
    let e3 := checkThreshold cfg now3 r3 95 e2.2
    getRequiredConsecutiveCount 5000 = 3 ∧
      e1.1 = false ∧ e2.1 = false ∧ e3.1 = true ∧ e3.2.consecutiveHighRAM = 0 := by
  norm_num [checkThreshold, resetCooldown, getRequiredConsecutiveCount, triggerAction,
    logDetectionEvent]

/-- Claim C5 as stated is false: the multiplier decay of the recovery
branch runs only when the consecutive-breach counter was positive.  In
the state right after a trigger the counter is 0, so a recovery sample
leaves a multiplier greater than 1 untouched: here the multiplier stays
2 although the claim requires it to be halved to 1. -/
theorem claim_C5_counterexample :
    (1 : Rat) < statePostTrigger.cooldownMultiplier ∧
      (checkThreshold cfg90 0 0 50 statePostTrigger).1 = false ∧
      (checkThreshold cfg90 0 0 50 statePostTrigger).2.cooldownMultiplier = 2 ∧
      (checkThreshold cfg90 0 0 50 statePostTrigger).2.cooldownMultiplier ≠
        max 1 (statePostTrigger.cooldownMultiplier * (1/2)) := by
  norm_num [checkThreshold, statePostTrigger, cfg90, max_def]

/-- Claim C5, amended: for every snapshot with percent at most the
threshold, evaluate returns false and leaves the consecutive-breach
counter at 0; the multiplier is halved (with floor 1) only when the
counter was positive and the multiplier exceeded 1 — otherwise it is
unchanged — and it never drops below 1 if it was at least 1. -/
theorem claim_C5_amended (cfg : RamConfig) (now : Int) (r : Rat) (percent : Rat)
    (s : DetectorState) (hp : percent ≤ cfg.threshold) :
    (checkThreshold cfg now r percent s).1 = false ∧
      (checkThreshold cfg now r percent s).2.consecutiveHighRAM = 0 ∧
      (checkThreshold cfg now r percent s).2.cooldownMultiplier =
        (if 0 < s.consecutiveHighRAM ∧ 1 < s.cooldownMultiplier then
          max 1 (s.cooldownMultiplier * (1/2))
        else s.cooldownMultiplier) ∧
      (1 ≤ s.cooldownMultiplier →
        1 ≤ (checkThreshold cfg now r percent s).2.cooldownMultiplier) := by
  have hnot : ¬ cfg.threshold < percent := not_lt.mpr hp
  by_cases hc : 0 < s.consecutiveHighRAM
  · by_cases hm : 1 < s.cooldownMultiplier
    · simp [checkThreshold, hnot, hc, hm, le_max_left]
    · simp [checkThreshold, hnot, hc, hm]
  · simp [checkThreshold, hnot, hc, Nat.eq_zero_of_not_pos hc]

/-- Witness for claim C5, amended: instantiated at a concrete
below-threshold sample with a positive streak and multiplier 2. -/
theorem claim_C5_amended_witness :
    (50 : Rat) ≤ cfg90.threshold ∧
      ((checkThreshold cfg90 0 0 50 stateStreak2).1 = false ∧
        (checkThreshold cfg90 0 0 50 stateStreak2).2.consecutiveHighRAM = 0 ∧
        (checkThreshold cfg90 0 0 50 stateStreak2).2.cooldownMultiplier =
          (if 0 < stateStreak2.consecutiveHighRAM ∧ 1 < stateStreak2.cooldownMultiplier then
            max 1 (stateStreak2.cooldownMultiplier * (1/2))
          else stateStreak2.cooldownMultiplier) ∧
        (1 ≤ stateStreak2.cooldownMultiplier →
          1 ≤ (checkThreshold cfg90 0 0 50 stateStreak2).2.cooldownMultiplier)) :=
  ⟨by norm_num [cfg90], claim_C5_amended cfg90 0 0 50 stateStreak2 (by norm_num [cfg90])⟩

/-- Claim C6 as stated is false: the below-threshold branch of
checkThreshold records no detection event — for a fresh detector fed a
below-threshold sample the history stays empty instead of receiving a
non-action event. -/
theorem claim_C6_counterexample :
    (checkThreshold cfg90 0 0 50 initState).2.detectionHistory = [] := by
  norm_num [checkThreshold, initState, cfg90]

/-- Claim C6, amended: for every snapshot with percent at most the
threshold, the evaluation step resets the counter and returns false but
records no detection event — the bounded history is left exactly as it
was. -/
theorem claim_C6_amended (cfg : RamConfig) (now : Int) (r : Rat) (percent : Rat)
    (s : DetectorState) (hp : percent ≤ cfg.threshold) :
    (checkThreshold cfg now r percent s).1 = false ∧
      (checkThreshold cfg now r percent s).2.detectionHistory = s.detectionHistory ∧
      (checkThreshold cfg now r percent s).2.consecutiveHighRAM = 0 := by
  have hnot : ¬ cfg.threshold < percent := not_lt.mpr hp
  by_cases hc : 0 < s.consecutiveHighRAM
  · by_cases hm : 1 < s.cooldownMultiplier <;> simp [checkThreshold, hnot, hc, hm]
  · simp [checkThreshold, hnot, hc, Nat.eq_zero_of_not_pos hc]

/-- Witness for claim C6, amended: a concrete below-threshold sample
leaves a concrete one-event history unchanged. -/
theorem claim_C6_amended_witness :
    (50 : Rat) ≤ cfg90.threshold ∧
      ((checkThreshold cfg90 5000 0 50 stateOneEvent).1 = false ∧
        (checkThreshold cfg90 5000 0 50 stateOneEvent).2.detectionHistory =
          stateOneEvent.detectionHistory ∧
        (checkThreshold cfg90 5000 0 50 stateOneEvent).2.consecutiveHighRAM = 0) :=
  ⟨by norm_num [cfg90], claim_C6_amended cfg90 5000 0 50 stateOneEvent (by norm_num [cfg90])⟩

/-- Claim C4 as stated is false in its cooldown-bound part: jitter is
added after the 30-minute cap, so with the base cooldown already at 30
minutes and a positive jitter draw the realized cooldown is 1890000 ms,
which exceeds 30 minutes (1800000 ms). -/
theorem claim_C4_counterexample :
    calculateCooldown 1800000 1 (3/4) = 1890000 ∧ (30 * 60 * 1000 : Int) < 1890000 := by
  constructor
  · norm_num [calculateCooldown, mathPow2, jsRound, Rat.den, min_def]
  · norm_num

/-- Claim C4, amended: each trigger sets the multiplier to
min(8, multiplier * 2) — doubling up to the ceiling 8 — and the
pre-jitter cooldown is capped at 30 minutes; with the up-to-10% jitter
the realized cooldown never exceeds 33 minutes (1980000 ms). -/
theorem claim_C4_amended (cfg : RamConfig) (now : Int) (percent : Rat)
    (s : DetectorState) (base m r : Rat)
    (hb : 0 ≤ base) (hr0 : 0 ≤ r) (hr1 : r < 1) :
    (triggerAction cfg now percent s).cooldownMultiplier = min 8 (s.cooldownMultiplier * 2) ∧
      (triggerAction cfg now percent s).cooldownMultiplier ≤ 8 ∧
      min (base * mathPow2 (m - 1)) (30 * 60 * 1000 : Rat) ≤ 30 * 60 * 1000 ∧
      calculateCooldown base m r ≤ 1980000 := by
  have h1 : (triggerAction cfg now percent s).cooldownMultiplier =
      min 8 (s.cooldownMultiplier * 2) := by
    simp [triggerAction, logDetectionEvent]
  refine ⟨h1, h1 ▸ min_le_left _ _, min_le_right _ _, ?_⟩
  have hpow : (0 : Rat) ≤ mathPow2 (m - 1) := by
    unfold mathPow2
    split
    · positivity
    · exact le_refl 0
  have hc0 : (0 : Rat) ≤ min (base * mathPow2 (m - 1)) (30 * 60 * 1000) :=
    le_min (mul_nonneg hb hpow) (by norm_num)
  have hc1 : min (base * mathPow2 (m - 1)) (30 * 60 * 1000 : Rat) ≤ 30 * 60 * 1000 :=
    min_le_right _ _
  show jsRound (min (base * mathPow2 (m - 1)) (30 * 60 * 1000) +
      min (base * mathPow2 (m - 1)) (30 * 60 * 1000) * (1/10) * (r * 2 - 1)) ≤ 1980000
  unfold jsRound
  generalize hC : min (base * mathPow2 (m - 1)) (30 * 60 * 1000 : Rat) = C at hc0 hc1 ⊢
  have hlt : C + C * (1/10) * (r * 2 - 1) + 1/2 < ((1980001 : Int) : Rat) := by
    push_cast
    nlinarith [mul_nonneg hc0 (show (0 : Rat) ≤ 1 - (r * 2 - 1) by linarith)]
  have hfl := Int.floor_lt.mpr hlt
  omega

/-- Witness for claim C4, amended: instantiated at a fresh detector,
base cooldown 60 s, multiplier 2 and jitter draw 1/2. -/
theorem claim_C4_amended_witness :
    (0 : Rat) ≤ 60000 ∧ (0 : Rat) ≤ 1/2 ∧ (1/2 : Rat) < 1 ∧
      ((triggerAction cfg90 0 95 initState).cooldownMultiplier =
          min 8 (initState.cooldownMultiplier * 2) ∧
        (triggerAction cfg90 0 95 initState).cooldownMultiplier ≤ 8 ∧
        min ((60000 : Rat) * mathPow2 (2 - 1)) (30 * 60 * 1000 : Rat) ≤ 30 * 60 * 1000 ∧
        calculateCooldown 60000 2 (1/2) ≤ 1980000) :=
  ⟨by norm_num, by norm_num, by norm_num,
    claim_C4_amended cfg90 0 95 initState 60000 2 (1/2) (by norm_num) (by norm_num)
      (by norm_num)⟩

/-- Claim C7: while the detector is in an active cooldown window (the
elapsed time since the last trigger is smaller than the realized
cooldown duration), an above-threshold snapshot evaluates to false, for
every value of the consecutive-breach counter; and a trigger does put
the detector into exactly such a state (cooldown flag set, trigger time
recorded). -/
theorem claim_C7 (cfg : RamConfig) (s : DetectorState) (now : Int) (r : Rat)
    (percent : Rat)
    (hbase : 0 < cfg.cooldown)
    (hcd : s.isInCooldown = true)
    (hp : cfg.threshold < percent)
    (hrem : 0 < calculateCooldown cfg.cooldown s.cooldownMultiplier r -
      (now - s.lastTriggerTime)) :
    (checkThreshold cfg now r percent s).1 = false ∧
      ∀ (s0 : DetectorState) (now0 : Int) (p0 : Rat),
        (triggerAction cfg now0 p0 s0).isInCooldown = true ∧
          (triggerAction cfg now0 p0 s0).lastTriggerTime = now0 := by
  constructor
  · simp [checkThreshold, hp, hcd, hrem]
  · intro s0 now0 p0
    constructor
    · simp [triggerAction, logDetectionEvent]
    · simp [triggerAction, logDetectionEvent]

/-- Witness for claim C7: a concrete in-cooldown state re-fed percent 95
one second after its trigger. -/
theorem claim_C7_witness :
    (0 : Rat) < cfg90.cooldown ∧ stateInCooldown.isInCooldown = true ∧
      cfg90.threshold < (95 : Rat) ∧
      0 < calculateCooldown cfg90.cooldown stateInCooldown.cooldownMultiplier (1/2) -
        (1000 - stateInCooldown.lastTriggerTime) ∧
      ((checkThreshold cfg90 1000 (1/2) 95 stateInCooldown).1 = false ∧
        ∀ (s0 : DetectorState) (now0 : Int) (p0 : Rat),
          (triggerAction cfg90 now0 p0 s0).isInCooldown = true ∧
            (triggerAction cfg90 now0 p0 s0).lastTriggerTime = now0) :=
  ⟨by norm_num [cfg90], rfl, by norm_num [cfg90],
    by norm_num [calculateCooldown, cfg90, stateInCooldown, mathPow2, jsRound, Rat.den,
      min_def],
    claim_C7 cfg90 stateInCooldown 1000 (1/2) 95 (by norm_num [cfg90]) rfl
      (by norm_num [cfg90])
      (by norm_num [calculateCooldown, cfg90, stateInCooldown, mathPow2, jsRound, Rat.den,
        min_def])⟩

/-- Claim C9 is the intended design but the code does not implement it:
`captureSnapshot` consults no cycle-in-progress flag and does not await
`handleHighRAMDetection`, so a tick that fires while a remediation cycle
is still running starts a second concurrent cycle instead of being
skipped.  With threshold 90, base cooldown 0 and a 7000 ms interval
(required consecutive count 2), four consecutive ticks at 95% reach a
state with two remediation cycles in flight before either completes. -/
theorem claim_C9_overlap :
    let cfg : RamConfig := { threshold := 90, cooldown := 0, monitorInterval := 7000 }
    (RAMMonitor.run cfg RAMMonitor.initMonitor
        [.tick 0 0 95, .tick 7000 0 95, .tick 14000 0 95, .tick 21000 0 95]).activeRemediations
      = 2 := by
  norm_num [RAMMonitor.run, RAMMonitor.step, RAMMonitor.initMonitor, initState,
    checkThreshold, getRequiredConsecutiveCount, triggerAction, logDetectionEvent,
    calculateCooldown, mathPow2, jsRound, Rat.den, min_def]

open ProcessKiller in
/-- Claim C1 as stated is false: when SIGTERM fails with a permission
error (`EPERM`), `killProcess` does not stop — it falls through and
calls `process.kill` with SIGKILL; and when that also fails with a
permission error, the outcome surfaces the generic message
"Failed to send SIGKILL", not the permission error. -/
theorem claim_C1_counterexample :
    "SIGKILL" ∈ (killProcess chromeProc epermEnv).2 ∧
      (killProcess chromeProc epermEnv).1.success = false ∧
      (killProcess chromeProc epermEnv).1.error = some "Failed to send SIGKILL" := by
  norm_num [killProcess, sendSignal, epermEnv]

open ProcessKiller in
/-- Claim C1, amended: when SIGTERM fails with a permission error the
killer escalates — both SIGTERM and SIGKILL are attempted; if the
SIGKILL call also fails with a permission error the outcome has
success = false, attempts = 2 and error "Failed to send SIGKILL" (the
permission error itself is only logged, not surfaced). -/
theorem claim_C1_amended (proc : ProcessInfo) (env : KillEnv)
    (h : env.sigtermError = some SignalError.EPERM) :
    (killProcess proc env).2 = ["SIGTERM", "SIGKILL"] ∧
      (env.sigkillError = some SignalError.EPERM →
        (killProcess proc env).1.success = false ∧
          (killProcess proc env).1.error = some "Failed to send SIGKILL" ∧
          (killProcess proc env).1.attempts = 2) := by
  have hterm : sendSignal env.sigtermError = false := by rw [h]; rfl
  constructor
  · rw [killProcess]
    simp only [hterm, Bool.false_eq_true, false_and, if_false]
    by_cases hk : sendSignal env.sigkillError = true
    · by_cases hx : env.exitsWithinSigkillWait = true
      · simp [hk, hx]
      · simp [hk, hx]
    · simp [hk]
  · intro hkill
    have hkillsig : sendSignal env.sigkillError = false := by rw [hkill]; rfl
    rw [killProcess]
    simp [hterm, hkillsig]

open ProcessKiller in
/-- Witness for claim C1, amended: the double-EPERM environment. -/
theorem claim_C1_amended_witness :
    epermEnv.sigtermError = some SignalError.EPERM ∧
      ((killProcess chromeProc epermEnv).2 = ["SIGTERM", "SIGKILL"] ∧
        (epermEnv.sigkillError = some SignalError.EPERM →
          (killProcess chromeProc epermEnv).1.success = false ∧
            (killProcess chromeProc epermEnv).1.error = some "Failed to send SIGKILL" ∧
            (killProcess chromeProc epermEnv).1.attempts = 2)) :=
  ⟨rfl, claim_C1_amended chromeProc epermEnv rfl⟩

end Claims

namespace Claims
open ProcessKiller in
/-- Claim C8: `terminateBatch` processes at most `maxKills` candidates in
input order and stops at the first failed outcome: the result list is
the successful prefix of the first `maxKills` candidates followed by the
first failure (if any), and on 3 candidates whose 2nd fails it returns
exactly the success and the failure, never attempting the 3rd. -/
theorem claim_C8 :
    (∀ (procs : List (ProcessInfo × KillEnv)) (maxKills : Nat),
      (killProcesses procs maxKills).length ≤ maxKills ∧
        killProcesses procs maxKills =
          ((procs.take maxKills).takeWhile (fun pe => (killProcess pe.1 pe.2).1.success)).map
              (fun pe => (killProcess pe.1 pe.2).1) ++
            (((procs.take maxKills).dropWhile
                (fun pe => (killProcess pe.1 pe.2).1.success)).take 1).map
              (fun pe => (killProcess pe.1 pe.2).1)) ∧
      (killProcesses [(systemdProc, gracefulEnv), (chromeProc, epermEnv),
          (vimProc, gracefulEnv)] 3).map (fun r => r.success) = [true, false] := by
  refine ⟨fun procs maxKills => ⟨?_, killProcessesGo_eq _⟩, ?_⟩
  · calc (killProcesses procs maxKills).length
        ≤ (procs.take maxKills).length := killProcessesGo_length _
      _ ≤ maxKills := by simpa using List.length_take_le maxKills procs
  · norm_num [killProcesses, killProcessesGo, killProcess, sendSignal, epermEnv,
      gracefulEnv]

end Claims

namespace Claims
open ProcessScanner in
/-- Claim C3: every process surviving `getKillableProcesses` meets the
memory floor, is not protected, is neither the own pid nor the parent
pid of the service, and is not in a critical (zombie/stopped/dead)
state; and on the worked example — systemd at 500 MB, chrome at 150 MB,
vim at 50 MB with minMemoryMB 100 and protected list ["systemd"] — the
killable result is exactly [chrome]. -/
theorem claim_C3 :
    (∀ (procs : List ProcessInfo) (cfg : ProcessesConfig) (currentPid parentPid : Int)
        (p : ProcessInfo), p ∈ getKillableProcesses procs cfg currentPid parentPid →
        cfg.minMemoryMB ≤ p.memory_mb ∧
          isProtected p cfg.protectedList = false ∧
          p.pid ≠ currentPid ∧ p.pid ≠ parentPid ∧
          isCriticalState p = false) ∧
      getKillableProcesses [systemdProc, chromeProc, vimProc] exampleScanCfg 9999 9998 =
        [chromeProc] := by
  constructor
  · intro procs cfg currentPid parentPid p hp
    rw [getKillableProcesses, List.mem_filter] at hp
    obtain ⟨-, hpred⟩ := hp
    split_ifs at hpred with h1 h2 h3 h4 h5 <;>
      first
        | exact absurd hpred (by decide)
        | exact ⟨not_lt.mp h1, Bool.eq_false_iff.mpr h2,
            fun heq => h3 (by simp [isCurrentProcess, heq]),
            fun heq => h3 (by simp [isCurrentProcess, heq]),
            Bool.eq_false_iff.mpr h5⟩
  · norm_num [getKillableProcesses, systemdProc, chromeProc, vimProc, exampleScanCfg,
      isProtected, isCurrentProcess, isShellProcess, isCriticalState, strIncludes,
      containsSub, strToLower, strToUpper, List.filter]
    decide

open ProcessScanner in
/-- Witness for claim C3: chrome is in the killable set of the
worked example and satisfies every exclusion predicate. -/
theorem claim_C3_witness :
    chromeProc ∈ getKillableProcesses [systemdProc, chromeProc, vimProc]
        exampleScanCfg 9999 9998 ∧
      (exampleScanCfg.minMemoryMB ≤ chromeProc.memory_mb ∧
        isProtected chromeProc exampleScanCfg.protectedList = false ∧
        chromeProc.pid ≠ 9999 ∧ chromeProc.pid ≠ 9998 ∧
        isCriticalState chromeProc = false) := by
  have hmem : chromeProc ∈ getKillableProcesses [systemdProc, chromeProc, vimProc]
      exampleScanCfg 9999 9998 := by
    rw [claim_C3.2]
    exact List.mem_singleton.mpr rfl
  exact ⟨hmem, claim_C3.1 _ exampleScanCfg 9999 9998 chromeProc hmem⟩

open ProcParser in
/-- Claim C10: whenever no parsed meminfo line yields a nonzero MemTotal
(the line is missing, unparseable, or literally zero), the computed
percent is 0, and likewise swap_percent is 0 whenever no line yields a
nonzero SwapTotal — the percentage divisions are guarded and never run
on a zero total. -/
theorem claim_C10 (meminfo : String)
    (hm : ∀ kv ∈ (splitLines meminfo.data).filterMap parseMemLine,
        kv.1 = "MemTotal" → kv.2 = 0)
    (hs : ∀ kv ∈ (splitLines meminfo.data).filterMap parseMemLine,
        kv.1 = "SwapTotal" → kv.2 = 0) :
    (getMemoryInfo meminfo).percent = 0 ∧
      (getMemoryInfo meminfo).swap_percent = 0 := by
  have h1 := dataLookup_eq_zero ((splitLines meminfo.data).filterMap parseMemLine)
    "MemTotal" hm
  have h2 := dataLookup_eq_zero ((splitLines meminfo.data).filterMap parseMemLine)
    "SwapTotal" hs
  constructor
  · simp only [getMemoryInfo, h1]
    norm_num [toMB, jsRound]
  · simp only [getMemoryInfo, h2]
    norm_num [toMB, jsRound]

open ProcParser in
/-- Witness for claim C10: the concrete meminfo text with an unparseable
MemTotal and a zero SwapTotal. -/
theorem claim_C10_witness :
    (∀ kv ∈ (splitLines badMeminfo.data).filterMap parseMemLine,
        kv.1 = "MemTotal" → kv.2 = 0) ∧
      (∀ kv ∈ (splitLines badMeminfo.data).filterMap parseMemLine,
          kv.1 = "SwapTotal" → kv.2 = 0) ∧
      ((getMemoryInfo badMeminfo).percent = 0 ∧
        (getMemoryInfo badMeminfo).swap_percent = 0) := by
  have hm : ∀ kv ∈ (splitLines badMeminfo.data).filterMap parseMemLine,
      kv.1 = "MemTotal" → kv.2 = 0 := by decide
  have hs : ∀ kv ∈ (splitLines badMeminfo.data).filterMap parseMemLine,
      kv.1 = "SwapTotal" → kv.2 = 0 := by decide
  exact ⟨hm, hs, claim_C10 badMeminfo hm hs⟩

end Claims
